import Mathlib

/-!
Verification of the inbound lead-capture funnel of the Call-Center-AI
repository: the per-call session store (the module-level dictionary
underlying the funnel), the gather step handler of `app.py`, and the lead
persistence function of `db.py`.

The embedding is shallow: the session store is an insertion-ordered
association list (mirroring a Python dict keyed by call id), the gather
handler is a pure state-transition function that also returns the list of
sink invocations it performed and either a TwiML-level response or the
Python exception it would raise, and the two external sinks (database
insert, lead email) are parameterised by whether they succeed.
-/

namespace CallCenter

/-- The accumulated fields of one call session: a mapping from step name to
the spoken answer, insertion-ordered like a Python dict. -/
abbrev Fields := List (String × String)

/-- The module-level session store of `app.py` (the dictionary mapping each
call id to its partial answers), insertion-ordered. -/
abbrev Store := List (String × Fields)

/-- Lookup in an insertion-ordered association list (Python `d.get(k)` /
`d[k]` with a presence check): the value under the first matching key. -/
def alookup {β : Type} : List (String × β) → String → Option β
  | [], _ => none
  | (k, v) :: rest, key => if k = key then some v else alookup rest key

/-- Assignment in an insertion-ordered association list (Python
`d[k] = v`): overwrite in place when the key is present, append when it is
absent — exactly the Python dict ordering behaviour. -/
def aset {β : Type} : List (String × β) → String → β → List (String × β)
  | [], key, value => [(key, value)]
  | (k, v) :: rest, key, value =>
    if k = key then (key, value) :: rest else (k, v) :: aset rest key value

/-- Removal from an insertion-ordered association list (Python
`d.pop(k, None)`): drop the first entry with the key; no error when the key
is absent. -/
def aerase {β : Type} : List (String × β) → String → List (String × β)
  | [], _ => []
  | (k, v) :: rest, key => if k = key then rest else (k, v) :: aerase rest key

/-- The read operation of the session store: the accumulated mapping for a
call id, or the empty mapping when the call id is unknown. -/
def get (store : Store) (call_id : String) : Fields :=
  (alookup store call_id).getD []

/-- Line 154 of `app.py`: `_call_cache.setdefault(CallSid, dict())` — when
the call id is absent an empty session entry is inserted (at the end, as a
Python dict would); when present the store is unchanged. -/
def setdefaultEmpty (store : Store) (call_id : String) : Store :=
  match alookup store call_id with
  | some _ => store
  | none => store ++ [(call_id, [])]

/-- Lines 154 and 156 of `app.py` with an answer present: the session entry
is created if absent, then the answer is written under the step name
(insert or overwrite). This is the `record` operation of the store. -/
def record (store : Store) (call_id step value : String) : Store :=
  let s1 := setdefaultEmpty store call_id
  aset s1 call_id (aset (get s1 call_id) step value)

/-- Line 181 of `app.py`: `_call_cache.pop(CallSid, None)` — the `discard`
operation of the store; idempotent, no error when the id is absent. -/
def discard (store : Store) (call_id : String) : Store :=
  aerase store call_id

/-- Python truthiness of the optional `SpeechResult` form field: `None` and
the empty string are falsy, any other string is truthy. -/
def truthy : Option String → Bool
  | none => false
  | some s => s != ""

/-- The store mutation performed by lines 154 to 156 of `gather_step`: the
session entry is always created if absent; the answer is recorded only when
it is truthy. -/
def updateCache (store : Store) (CallSid step : String)
    (SpeechResult : Option String) : Store :=
  if truthy SpeechResult then record store CallSid step (SpeechResult.getD "")
  else setdefaultEmpty store CallSid

/-- Line 159 of `app.py`: the fixed successor table
`next_map = dict(name: email, email: phone, phone: done)`, as a Python dict
lookup that can miss. -/
def next_map (step : String) : Option String :=
  if step = "name" then some "email"
  else if step = "email" then some "phone"
  else if step = "phone" then some "done"
  else none

/-- The spoken prompt of the email step (line 164 of `app.py`). -/
def emailPromptText : String := "Please say your email address after the tone."

/-- The spoken prompt of the phone step (line 165 of `app.py`). -/
def phonePromptText : String := "Finally, please say your phone number digits."

/-- Lines 163 to 166 of `app.py`: the prompt table keyed by the next step,
as a Python dict lookup that can miss (it has no entry for `name`). -/
def prompts (step : String) : Option String :=
  if step = "email" then some emailPromptText
  else if step = "phone" then some phonePromptText
  else none

/-- Behaviour of the two external sinks during one request: whether the
database insert (`save_lead_to_db`) and the lead email (`send_lead_email`)
succeed or raise. -/
structure SinkBehavior where
  saveOk : Bool
  emailOk : Bool
deriving DecidableEq

/-- Both sinks succeed. -/
def sinksOK : SinkBehavior := ⟨true, true⟩

/-- One observable sink invocation performed by the gather handler. -/
inductive Effect
  | saveLead (call_sid name email phone : String)
  | sendEmail (name email phone : String)
deriving DecidableEq

/-- The TwiML-level response of the gather handler: either a gather prompt
for the next step (with a redirect to the same step on timeout), or the
terminal goodbye with a hangup. -/
inductive Resp
  | ask (next_step prompt : String)
  | bye (msg : String)
deriving DecidableEq

/-- A Python exception escaping the handler: a dict `KeyError`, or the
exception raised by a failing external sink. -/
inductive PyErr
  | keyError (key : String)
  | sinkError (sink : String)
deriving DecidableEq

/-- The observable outcome of one call to `gather_step`: the session store
after the request (mutations before an exception persist, as they do for
the module-level dict in Python), the sink invocations performed, and
either the response or the escaping exception. -/
structure GResult where
  store : Store
  effects : List Effect
  out : Except PyErr Resp

/-- Lines 148 to 183 of `app.py`, the `gather_step` handler:
session update (`setdefault`, then record a truthy answer), successor
lookup in `next_map` (a `KeyError` for an unknown step), then either a
prompt for the next step or — when the successor is `done` — the terminal
action: read the three fields out of the session (`KeyError` when one is
missing), call the database sink, call the email sink, say goodbye and
discard the session. An exception from a sink escapes before the discard. -/
def gather_step (sinks : SinkBehavior) (store : Store) (step CallSid : String)
    (SpeechResult : Option String) : GResult :=
  let store2 := updateCache store CallSid step SpeechResult
  let data := get store2 CallSid
  match next_map step with
  | none => ⟨store2, [], Except.error (PyErr.keyError step)⟩
  | some next_step =>
    if next_step = "done" then
      match alookup data "name" with
      | none => ⟨store2, [], Except.error (PyErr.keyError "name")⟩
      | some nm =>
        match alookup data "email" with
        | none => ⟨store2, [], Except.error (PyErr.keyError "email")⟩
        | some em =>
          match alookup data "phone" with
          | none => ⟨store2, [], Except.error (PyErr.keyError "phone")⟩
          | some ph =>
            if sinks.saveOk then
              if sinks.emailOk then
                ⟨discard store2 CallSid,
                 [Effect.saveLead CallSid nm em ph, Effect.sendEmail nm em ph],
                 Except.ok (Resp.bye "Thank you; we have your info. Goodbye.")⟩
              else
                ⟨store2,
                 [Effect.saveLead CallSid nm em ph, Effect.sendEmail nm em ph],
                 Except.error (PyErr.sinkError "send_lead_email")⟩
            else
              ⟨store2,
               [Effect.saveLead CallSid nm em ph],
               Except.error (PyErr.sinkError "save_lead_to_db")⟩
    else
      match prompts next_step with
      | none => ⟨store2, [], Except.error (PyErr.keyError next_step)⟩
      | some p => ⟨store2, [], Except.ok (Resp.ask next_step p)⟩

/-- A row of the `leads` table of `db.py`: `phone` is declared the primary
key; `name`, `email`, `notes` are the remaining columns (the timestamp is
immaterial to the claims and omitted). -/
structure Lead where
  phone : String
  name : String
  email : String
  notes : String
deriving DecidableEq

/-- The `save_lead` function of `db.py`: it constructs a new `Lead` row and
commits a plain ORM INSERT. Because `phone` is declared `primary_key` in
the `Lead` model, inserting a row whose phone already exists violates the
uniqueness constraint and the commit raises an integrity error; otherwise
the row is appended to the table. -/
def save_lead (tbl : List Lead) (name email phone notes : String) :
    Except String (List Lead) :=
  if tbl.any fun l => l.phone == phone then
    Except.error "IntegrityError: duplicate primary key on phone"
  else
    Except.ok (tbl ++ [⟨phone, name, email, notes⟩])

/-- Modelled from the spec: the transcript query endpoint is absent from
the sources under verification (the routes of `app.py` are `/health`,
`/call/start`, `/call/stop`, `/twiml`, `/incoming` and `/incoming/gather`;
none returns a transcript). Spec section 6: given a call identifier, return
the ordered sequence of lines recorded for that call so far; empty sequence
for unknown identifiers, never an error. -/
def transcript_query (transcripts : List (String × List String))
    (call_id : String) : List String :=
  (alookup transcripts call_id).getD []

/-! ### Association-list lemmas -/

theorem alookup_aset_self {β : Type} (s : List (String × β)) (k : String) (v : β) :
    alookup (aset s k v) k = some v := by
  induction s with
  | nil => simp [aset, alookup]
  | cons hd tl ih =>
    obtain ⟨k', v'⟩ := hd
    by_cases h : k' = k
    · simp [aset, h, alookup]
    · simp [aset, h, alookup, ih]

theorem alookup_aset_ne {β : Type} (s : List (String × β)) (k k' : String) (v : β)
    (h : k' ≠ k) : alookup (aset s k v) k' = alookup s k' := by
  induction s with
  | nil => simp [aset, alookup, Ne.symm h]
  | cons hd tl ih =>
    obtain ⟨k₀, v₀⟩ := hd
    by_cases h0 : k₀ = k
    · subst h0
      simp [aset, alookup, Ne.symm h]
    · simp only [aset, if_neg h0, alookup]
      by_cases h1 : k₀ = k'
      · simp [h1]
      · simp [h1, ih]

theorem alookup_aerase_ne {β : Type} (s : List (String × β)) (k k' : String)
    (h : k' ≠ k) : alookup (aerase s k) k' = alookup s k' := by
  induction s with
  | nil => simp [aerase]
  | cons hd tl ih =>
    obtain ⟨k₀, v₀⟩ := hd
    by_cases h0 : k₀ = k
    · subst h0
      simp [aerase, alookup, Ne.symm h]
    · simp only [aerase, if_neg h0, alookup]
      by_cases h1 : k₀ = k'
      · simp [h1]
      · simp [h1, ih]

theorem alookup_append_of_none {β : Type} (s t : List (String × β)) (k : String)
    (h : alookup s k = none) : alookup (s ++ t) k = alookup t k := by
  induction s with
  | nil => simp
  | cons hd tl ih =>
    obtain ⟨k₀, v₀⟩ := hd
    by_cases h0 : k₀ = k
    · simp [alookup, h0] at h
    · simp only [alookup, if_neg h0] at h
      simp [alookup, if_neg h0, ih h]

theorem alookup_append_of_some {β : Type} (s t : List (String × β)) (k : String)
    (v : β) (h : alookup s k = some v) : alookup (s ++ t) k = some v := by
  induction s with
  | nil => simp [alookup] at h
  | cons hd tl ih =>
    obtain ⟨k₀, v₀⟩ := hd
    by_cases h0 : k₀ = k
    · simp_all [alookup]
    · simp only [alookup, if_neg h0] at h
      simp only [List.cons_append, alookup, if_neg h0]
      exact ih h

theorem alookup_setdefaultEmpty_self (s : Store) (k : String) :
    alookup (setdefaultEmpty s k) k = some (get s k) := by
  unfold setdefaultEmpty get
  cases h : alookup s k with
  | some d => simp [h]
  | none => simp [alookup_append_of_none s _ k h, alookup, h]

theorem alookup_setdefaultEmpty_ne (s : Store) (k k' : String) (h : k' ≠ k) :
    alookup (setdefaultEmpty s k) k' = alookup s k' := by
  unfold setdefaultEmpty
  cases h0 : alookup s k with
  | some d => rfl
  | none =>
    cases h1 : alookup s k' with
    | some d => rw [alookup_append_of_some s _ k' d h1]
    | none =>
      rw [alookup_append_of_none s _ k' h1]
      simp [alookup, Ne.symm h]

theorem get_setdefaultEmpty_self (s : Store) (k : String) :
    get (setdefaultEmpty s k) k = get s k := by
  simp [get, alookup_setdefaultEmpty_self, CallCenter.get]

theorem get_record_self (s : Store) (id step v : String) :
    get (record s id step v) id = aset (get s id) step v := by
  unfold record
  simp [get, alookup_aset_self, get_setdefaultEmpty_self,
    alookup_setdefaultEmpty_self]

theorem alookup_record_ne (s : Store) (id id' step v : String) (h : id' ≠ id) :
    alookup (record s id step v) id' = alookup s id' := by
  unfold record
  rw [alookup_aset_ne _ _ _ _ h, alookup_setdefaultEmpty_ne _ _ _ h]

theorem alookup_updateCache_ne (s : Store) (id id' step : String)
    (speech : Option String) (h : id' ≠ id) :
    alookup (updateCache s id step speech) id' = alookup s id' := by
  unfold updateCache
  by_cases ht : truthy speech
  · simp [ht, alookup_record_ne _ _ _ _ _ h]
  · simp [ht, alookup_setdefaultEmpty_ne _ _ _ h]

theorem gather_step_store_cases (sk : SinkBehavior) (s : Store)
    (step sid : String) (sp : Option String) :
    (gather_step sk s step sid sp).store = updateCache s sid step sp ∨
    (gather_step sk s step sid sp).store =
      discard (updateCache s sid step sp) sid := by
  unfold gather_step
  dsimp only
  repeat' split
  all_goals simp

theorem alookup_eq_none_of_not_mem {β : Type} (s : List (String × β)) (k : String)
    (h : k ∉ s.map Prod.fst) : alookup s k = none := by
  induction s with
  | nil => rfl
  | cons hd tl ih =>
    obtain ⟨k₀, v₀⟩ := hd
    rw [List.map_cons, List.mem_cons] at h
    push_neg at h
    rw [alookup, if_neg (Ne.symm h.1)]
    exact ih h.2

theorem mem_keys_aset {β : Type} (s : List (String × β)) (k k' : String) (v : β)
    (h : k' ∈ (aset s k v).map Prod.fst) : k' ∈ s.map Prod.fst ∨ k' = k := by
  induction s with
  | nil =>
    right
    rw [show aset ([] : List (String × β)) k v = [(k, v)] from rfl,
      List.map_cons, List.map_nil, List.mem_singleton] at h
    exact h
  | cons hd tl ih =>
    obtain ⟨k₀, v₀⟩ := hd
    by_cases h0 : k₀ = k
    · subst h0
      have hset : aset ((k₀, v₀) :: tl) k₀ v = (k₀, v) :: tl := by
        rw [aset, if_pos rfl]
      rw [hset, List.map_cons, List.mem_cons] at h
      rw [List.map_cons, List.mem_cons]
      tauto
    · have hset : aset ((k₀, v₀) :: tl) k v = (k₀, v₀) :: aset tl k v := by
        rw [aset, if_neg h0]
      rw [hset, List.map_cons, List.mem_cons] at h
      rw [List.map_cons, List.mem_cons]
      rcases h with h | h
      · tauto
      · rcases ih h with h | h <;> tauto

theorem keys_nodup_aset {β : Type} (s : List (String × β)) (k : String) (v : β)
    (h : (s.map Prod.fst).Nodup) : ((aset s k v).map Prod.fst).Nodup := by
  induction s with
  | nil => simp [aset]
  | cons hd tl ih =>
    obtain ⟨k₀, v₀⟩ := hd
    rw [List.map_cons, List.nodup_cons] at h
    by_cases h0 : k₀ = k
    · subst h0
      have hset : aset ((k₀, v₀) :: tl) k₀ v = (k₀, v) :: tl := by
        rw [aset, if_pos rfl]
      rw [hset, List.map_cons, List.nodup_cons]
      exact h
    · have hset : aset ((k₀, v₀) :: tl) k v = (k₀, v₀) :: aset tl k v := by
        rw [aset, if_neg h0]
      rw [hset, List.map_cons, List.nodup_cons]
      refine ⟨?_, ih h.2⟩
      intro hmem
      rcases mem_keys_aset tl k k₀ v hmem with hm | hm
      · exact h.1 hm
      · exact h0 hm

theorem alookup_aerase_self_of_nodup {β : Type} (s : List (String × β))
    (k : String) (h : (s.map Prod.fst).Nodup) : alookup (aerase s k) k = none := by
  induction s with
  | nil => rfl
  | cons hd tl ih =>
    obtain ⟨k₀, v₀⟩ := hd
    rw [List.map_cons, List.nodup_cons] at h
    by_cases h0 : k₀ = k
    · subst h0
      rw [aerase, if_pos rfl]
      exact alookup_eq_none_of_not_mem tl k₀ h.1
    · rw [aerase, if_neg h0, alookup, if_neg h0]
      exact ih h.2

/-! ### Claim theorems -/

/-- Claim C9: for every call_id never seen by the session store, `get`
returns the empty mapping, not an error. -/
theorem C9_get_unknown_empty (store : Store) (call_id : String)
    (h : alookup store call_id = none) : get store call_id = [] := by
  simp [get, h]

/-- Witness for C9 at the empty store and a concrete call id. -/
theorem C9_witness : get [] "CA-unseen" = [] :=
  C9_get_unknown_empty [] "CA-unseen" rfl

/-- Claim C8: recording accumulates rather than replaces — from a session
with no accumulated fields, `record(id, name, Alice)` yields exactly the
mapping with the single entry `name = Alice`, and a subsequent
`record(id, email, a@x.com)` yields exactly `name = Alice, email = a@x.com`:
the previously stored step is preserved and the new one appended. -/
theorem C8_record_accumulates (store : Store) (id : String)
    (h : get store id = []) :
    get (record store id "name" "Alice") id = [("name", "Alice")] ∧
    get (record (record store id "name" "Alice") id "email" "a@x.com") id =
      [("name", "Alice"), ("email", "a@x.com")] := by
  constructor
  · rw [get_record_self, h]; rfl
  · rw [get_record_self, get_record_self, h]
    simp [aset]

/-- Witness for C8 at the empty store and a concrete call id. -/
theorem C8_witness :
    get (record [] "CA8" "name" "Alice") "CA8" = [("name", "Alice")] ∧
    get (record (record [] "CA8" "name" "Alice") "CA8" "email" "a@x.com")
      "CA8" = [("name", "Alice"), ("email", "a@x.com")] :=
  C8_record_accumulates [] "CA8" rfl

/-- Claim C6: the transcript query returns the ordered sequence of lines
recorded for a call identifier, and the empty sequence for an identifier
with no recorded data; it is a total function, never an error. (The
endpoint is modelled from the spec: no transcript route exists in the
sources.) -/
theorem C6_transcript_query_total (ts : List (String × List String))
    (call_id : String) :
    (alookup ts call_id = none → transcript_query ts call_id = []) ∧
    (∀ ls, alookup ts call_id = some ls → transcript_query ts call_id = ls) := by
  constructor
  · intro h; simp [transcript_query, h]
  · intro ls h; simp [transcript_query, h]

/-- Witness for C6: a one-call transcript map queried at an unknown and at
the known identifier. -/
theorem C6_witness :
    transcript_query [("CA6", ["hello"])] "CA-other" = [] ∧
    transcript_query [("CA6", ["hello"])] "CA6" = ["hello"] :=
  ⟨(C6_transcript_query_total [("CA6", ["hello"])] "CA-other").1 (by decide),
   (C6_transcript_query_total [("CA6", ["hello"])] "CA6").2 ["hello"] (by decide)⟩

/-- Claim C10: for any step value outside name, email, phone — including
the terminal name done — the successor lookup in `next_map` raises a
`KeyError` before any prompt is produced: the handler's outcome is the
`KeyError` exception and no sink effect occurs. -/
theorem C10_unknown_step_keyerror (sk : SinkBehavior) (store : Store)
    (step sid : String) (speech : Option String)
    (h1 : step ≠ "name") (h2 : step ≠ "email") (h3 : step ≠ "phone") :
    (gather_step sk store step sid speech).out =
      Except.error (PyErr.keyError step) ∧
    (gather_step sk store step sid speech).effects = [] := by
  unfold gather_step
  simp [next_map, h1, h2, h3]

/-- Witness for C10 at the replayed terminal step name done. -/
theorem C10_witness :
    (gather_step sinksOK [] "done" "CA10" none).out =
      Except.error (PyErr.keyError "done") ∧
    (gather_step sinksOK [] "done" "CA10" none).effects = [] :=
  C10_unknown_step_keyerror sinksOK [] "done" "CA10" none
    (by decide) (by decide) (by decide)

/-- Counterexample to claim C4: saving a second lead with the same phone
number does not overwrite the first — the plain INSERT of `save_lead`
violates the primary-key uniqueness of `phone` and raises, producing no
table at all (`toOption = none`), while the first record stands. -/
theorem C4_counterexample :
    save_lead [] "Alice" "a@x.com" "555-1234" "" =
      Except.ok [⟨"555-1234", "Alice", "a@x.com", ""⟩] ∧
    save_lead [⟨"555-1234", "Alice", "a@x.com", ""⟩] "Bob" "b@x.com"
        "555-1234" "" =
      Except.error "IntegrityError: duplicate primary key on phone" ∧
    (save_lead [⟨"555-1234", "Alice", "a@x.com", ""⟩] "Bob" "b@x.com"
        "555-1234" "").toOption = none := by
  refine ⟨rfl, rfl, rfl⟩

/-- Claim C4 as amended: a stored Lead is keyed by its phone number, and
saving a second lead with the same phone number fails with a primary-key
integrity error, leaving the table as it was; saving with a fresh phone
number appends a new record and never updates or deletes existing ones. -/
theorem C4_amended_phone_key_insert (tbl : List Lead)
    (name email phone notes : String) :
    ((tbl.any fun l => l.phone == phone) = true →
      save_lead tbl name email phone notes =
        Except.error "IntegrityError: duplicate primary key on phone") ∧
    ((tbl.any fun l => l.phone == phone) = false →
      save_lead tbl name email phone notes =
        Except.ok (tbl ++ [⟨phone, name, email, notes⟩])) := by
  constructor <;> intro h <;> simp [save_lead, h]

/-- Witness for the amended C4: a duplicate phone errors, a fresh phone
appends. -/
theorem C4_amended_witness :
    save_lead [⟨"555", "A", "a", ""⟩] "B" "b" "555" "" =
      Except.error "IntegrityError: duplicate primary key on phone" ∧
    save_lead [⟨"555", "A", "a", ""⟩] "B" "b" "777" "" =
      Except.ok [⟨"555", "A", "a", ""⟩, ⟨"777", "B", "b", ""⟩] :=
  ⟨(C4_amended_phone_key_insert [⟨"555", "A", "a", ""⟩] "B" "b" "555" "").1
      (by decide),
   (C4_amended_phone_key_insert [⟨"555", "A", "a", ""⟩] "B" "b" "777" "").2
      (by decide)⟩

/-- Claim C7: for any two distinct call identifiers A and B, a gather
request for call B — any step, any answer — leaves the stored entry of
call A in the session store exactly unchanged. -/
theorem C7_no_cross_call_interference (sk : SinkBehavior) (store : Store)
    (step A B : String) (speech : Option String) (h : A ≠ B) :
    alookup (gather_step sk store step B speech).store A = alookup store A := by
  rcases gather_step_store_cases sk store step B speech with hc | hc <;> rw [hc]
  · exact alookup_updateCache_ne store B A step speech h
  · unfold discard
    rw [alookup_aerase_ne _ _ _ h]
    exact alookup_updateCache_ne store B A step speech h

/-- Witness for C7: recording a name for call B leaves the accumulated
fields of call A untouched. -/
theorem C7_witness :
    alookup (gather_step sinksOK [("CA-A", [("name", "Alice")])] "name" "CA-B"
      (some "Bob")).store "CA-A" = some [("name", "Alice")] :=
  C7_no_cross_call_interference sinksOK [("CA-A", [("name", "Alice")])]
    "name" "CA-A" "CA-B" (some "Bob") (by decide)

/-- Counterexample to claim C1: a gather request for step name carrying no
spoken answer does not re-ask the name step — the handler advances and
produces the prompt of the email step. -/
theorem C1_counterexample :
    (gather_step sinksOK [] "name" "CA1" none).out =
      Except.ok (Resp.ask "email" emailPromptText) ∧ "email" ≠ "name" :=
  ⟨rfl, by decide⟩

/-- Claim C1 as amended: when the gather operation receives no spoken
answer at a step whose successor is not terminal (name or email), the
session's stored fields are unchanged and no sink is invoked, but the
handler advances rather than re-asking: the prompt produced is the one of
the successor step. -/
theorem C1_amended_no_answer_advances (sk : SinkBehavior) (store : Store)
    (sid step : String) (h : step = "name" ∨ step = "email") :
    (gather_step sk store step sid none).effects = [] ∧
    get (gather_step sk store step sid none).store sid = get store sid ∧
    (gather_step sk store step sid none).out =
      Except.ok (Resp.ask (if step = "name" then "email" else "phone")
        (if step = "name" then emailPromptText else phonePromptText)) := by
  rcases h with h | h <;> subst h <;>
    exact ⟨by simp [gather_step, updateCache, truthy, next_map, prompts],
      by simp [gather_step, updateCache, truthy, next_map, prompts,
        get_setdefaultEmpty_self],
      by simp [gather_step, updateCache, truthy, next_map, prompts]⟩

/-- Witness for the amended C1 at the name step of a fresh call. -/
theorem C1_amended_witness :
    (gather_step sinksOK [] "name" "CA1w" none).effects = [] ∧
    get (gather_step sinksOK [] "name" "CA1w" none).store "CA1w" = [] ∧
    (gather_step sinksOK [] "name" "CA1w" none).out =
      Except.ok (Resp.ask "email" emailPromptText) :=
  C1_amended_no_answer_advances sinksOK [] "CA1w" "name" (Or.inl rfl)

/-- Counterexample to claim C5: the session entry is not created lazily on
the first answer — a gather request for a fresh call id carrying no answer
at all already creates the (empty) session entry in the store. -/
theorem C5_counterexample :
    alookup (gather_step sinksOK [] "name" "CA5" none).store "CA5" =
      some [] := rfl

/-- Claim C5 as amended: the session entry for a call id is created on the
first gather request for that id, whether or not it carries an answer
(empty when it does not, holding the answer when it does); it is deleted
upon successfully completing the terminal step. -/
theorem C5_amended_lifecycle (sk : SinkBehavior) (store : Store)
    (sid step : String) (speech : Option String) (nm em : String)
    (hnd : (store.map Prod.fst).Nodup) :
    (alookup store sid = none →
      alookup (gather_step sk store step sid speech).store sid =
        some (if truthy speech then [(step, speech.getD "")] else [])) ∧
    (alookup store sid = some [("name", nm), ("email", em)] →
      alookup (gather_step sinksOK store "phone" sid (some "555")).store sid =
        none) := by
  constructor
  · intro h
    have hs2 : alookup (updateCache store sid step speech) sid =
        some (if truthy speech then [(step, speech.getD "")] else []) := by
      unfold updateCache
      by_cases ht : truthy speech
      · simp only [ht, if_pos]
        unfold record
        rw [alookup_aset_self]
        rw [get_setdefaultEmpty_self]
        simp [get, h, aset, ht]
      · simp only [ht, if_neg, Bool.false_eq_true, not_false_eq_true]
        rw [alookup_setdefaultEmpty_self]
        simp [get, h, ht]
    unfold gather_step
    dsimp only
    by_cases h1 : step = "name"
    · subst h1; simp [next_map, prompts, hs2]
    by_cases h2 : step = "email"
    · subst h2; simp [next_map, prompts, hs2]
    by_cases h3 : step = "phone"
    · subst h3
      by_cases ht : truthy speech <;>
        simp [next_map, get, hs2, ht, alookup]
    · simp [next_map, h1, h2, h3, hs2]
  · intro h
    have hupd : updateCache store sid "phone" (some "555") =
        aset store sid [("name", nm), ("email", em), ("phone", "555")] := by
      simp [updateCache, truthy, record, setdefaultEmpty, h, get, aset]
    unfold gather_step
    dsimp only
    rw [hupd]
    simp [next_map, get, alookup_aset_self, alookup, sinksOK, discard,
      alookup_aerase_self_of_nodup _ _ (keys_nodup_aset store sid _ hnd)]

/-- Witness for the amended C5: the entry appears on the first request and
is gone after the successful terminal step. -/
theorem C5_amended_witness :
    alookup (gather_step sinksOK [] "name" "CA5w" (some "Alice")).store
      "CA5w" = some [("name", "Alice")] ∧
    alookup (gather_step sinksOK [("CA5w", [("name", "A"), ("email", "B")])]
      "phone" "CA5w" (some "555")).store "CA5w" = none :=
  ⟨(C5_amended_lifecycle sinksOK [] "CA5w" "name" (some "Alice") "A" "B"
      (by simp)).1 rfl,
   (C5_amended_lifecycle sinksOK [("CA5w", [("name", "A"), ("email", "B")])]
      "CA5w" "name" none "A" "B" (by simp)).2 rfl⟩

/-- Claim C2: for every call id, driving the funnel end-to-end with the
answers Alice, a@x.com, 555-1234 for the steps name, email, phone performs
the terminal action exactly once — the full record reaches the persistence
sink and the notification sink, in that single final request — and
afterwards the session for that call id is absent from the store. -/
theorem C2_end_to_end (sid : String) :
    (gather_step sinksOK [] "name" sid (some "Alice")).effects = [] ∧
    (gather_step sinksOK (gather_step sinksOK [] "name" sid
        (some "Alice")).store "email" sid (some "a@x.com")).effects = [] ∧
    (gather_step sinksOK
        (gather_step sinksOK (gather_step sinksOK [] "name" sid
          (some "Alice")).store "email" sid (some "a@x.com")).store
        "phone" sid (some "555-1234")).effects =
      [Effect.saveLead sid "Alice" "a@x.com" "555-1234",
       Effect.sendEmail "Alice" "a@x.com" "555-1234"] ∧
    alookup (gather_step sinksOK
        (gather_step sinksOK (gather_step sinksOK [] "name" sid
          (some "Alice")).store "email" sid (some "a@x.com")).store
        "phone" sid (some "555-1234")).store sid = none := by
  have h1 : (gather_step sinksOK [] "name" sid (some "Alice")).store =
      [(sid, [("name", "Alice")])] := by
    simp [gather_step, updateCache, truthy, record, setdefaultEmpty, get,
      alookup, aset, next_map, prompts]
  have h2 : (gather_step sinksOK [(sid, [("name", "Alice")])] "email" sid
      (some "a@x.com")).store =
      [(sid, [("name", "Alice"), ("email", "a@x.com")])] := by
    simp [gather_step, updateCache, truthy, record, setdefaultEmpty, get,
      alookup, aset, next_map, prompts]
  refine ⟨?_, ?_, ?_, ?_⟩
  · simp [gather_step, updateCache, truthy, record, setdefaultEmpty, get,
      alookup, aset, next_map, prompts]
  · rw [h1]
    simp [gather_step, updateCache, truthy, record, setdefaultEmpty, get,
      alookup, aset, next_map, prompts]
  · rw [h1, h2]
    simp [gather_step, updateCache, truthy, record, setdefaultEmpty, get,
      alookup, aset, next_map, prompts, sinksOK, discard, aerase]
  · rw [h1, h2]
    simp [gather_step, updateCache, truthy, record, setdefaultEmpty, get,
      alookup, aset, next_map, prompts, sinksOK, discard, aerase]

/-- Counterexample to claim C3: when the persistence sink raises during the
terminal action, the caller does not receive a spoken failure prompt — the
exception escapes the handler — and the session is not discarded: the full
record is still in the store. -/
theorem C3_counterexample :
    (gather_step ⟨false, true⟩
        [("CA3", [("name", "Alice"), ("email", "a@x.com")])]
        "phone" "CA3" (some "555-1234")).out =
      Except.error (PyErr.sinkError "save_lead_to_db") ∧
    alookup (gather_step ⟨false, true⟩
        [("CA3", [("name", "Alice"), ("email", "a@x.com")])]
        "phone" "CA3" (some "555-1234")).store "CA3" =
      some [("name", "Alice"), ("email", "a@x.com"), ("phone", "555-1234")] :=
  ⟨rfl, rfl⟩

/-- Claim C3 as amended: when the persistence sink raises during the
terminal action, the exception propagates to the caller (no spoken prompt
is produced), the persistence sink is invoked exactly once and the
notification sink not at all (no retry of either sink), and the session
for that call id remains in the store rather than being discarded. -/
theorem C3_amended_save_failure (sk : SinkBehavior) (store : Store)
    (sid nm em v : String) (hsv : sk.saveOk = false)
    (hst : alookup store sid = some [("name", nm), ("email", em)])
    (hv : v ≠ "") :
    (gather_step sk store "phone" sid (some v)).effects =
      [Effect.saveLead sid nm em v] ∧
    (gather_step sk store "phone" sid (some v)).out =
      Except.error (PyErr.sinkError "save_lead_to_db") ∧
    alookup (gather_step sk store "phone" sid (some v)).store sid =
      some [("name", nm), ("email", em), ("phone", v)] := by
  have ht : truthy (some v) = true := by simp [truthy, hv]
  have hupd : updateCache store sid "phone" (some v) =
      aset store sid [("name", nm), ("email", em), ("phone", v)] := by
    simp [updateCache, ht, record, setdefaultEmpty, hst, get, aset]
  refine ⟨?_, ?_, ?_⟩ <;>
  · unfold gather_step
    dsimp only
    rw [hupd]
    simp [next_map, get, alookup_aset_self, alookup, hsv]

/-- Witness for the amended C3 with a failing database sink at the phone
step of a session holding name and email. -/
theorem C3_amended_witness :
    (gather_step ⟨false, true⟩ [("CA3w", [("name", "A"), ("email", "B")])]
        "phone" "CA3w" (some "5")).effects =
      [Effect.saveLead "CA3w" "A" "B" "5"] ∧
    (gather_step ⟨false, true⟩ [("CA3w", [("name", "A"), ("email", "B")])]
        "phone" "CA3w" (some "5")).out =
      Except.error (PyErr.sinkError "save_lead_to_db") ∧
    alookup (gather_step ⟨false, true⟩
        [("CA3w", [("name", "A"), ("email", "B")])]
        "phone" "CA3w" (some "5")).store "CA3w" =
      some [("name", "A"), ("email", "B"), ("phone", "5")] :=
  C3_amended_save_failure ⟨false, true⟩
    [("CA3w", [("name", "A"), ("email", "B")])] "CA3w" "A" "B" "5"
    rfl rfl (by decide)

end CallCenter
